import Mathlib

/-!
Cluster service of KubeOperator (`pkg/service/cluster.go`).

A shallow embedding of `clusterService` and proofs about cluster creation,
API-server endpoint resolution, batch deletion and the read projections.

Modelling conventions
* Go strings are `String`, Go `int` values are `Int`; a Go `error` is an
  `Option Error` (`none` is `nil`).  The zero value of a struct is the structure
  with every field at its default.
* The repositories and the two workflow services are interfaces whose
  implementations live outside `cluster.go`; they are the fields of `Env`.
  Lookups read the collaborator state `σ`, mutating calls return a new state.
* Every service method returns an `Outcome`: the Go result value, the Go error,
  the collaborator state afterwards and the collaborator calls it made, in
  chronological order.
* The two node counters of `Create` are `Nat`: a counter is printed only while
  it is at most the number of node descriptors, so the Go `int` never wraps
  before it is used.
-/

namespace KubeOperator

/-- A Go error value. -/
abbrev Error := String

/-! ## `model` -/

structure Host where
  ID : String := ""
  Name : String := ""
  Ip : String := ""
deriving DecidableEq, Repr

structure Plan where
  ID : String := ""
  Name : String := ""
deriving DecidableEq, Repr

structure ClusterSpec where
  RuntimeType : String := ""
  DockerStorageDir : String := ""
  ContainerdStorageDir : String := ""
  NetworkType : String := ""
  KubePodSubnet : String := ""
  KubeServiceSubnet : String := ""
  Version : String := ""
  Provider : String := ""
  FlannelBackend : String := ""
  CalicoIpv4poolIpip : String := ""
  KubeMaxPods : Int := 0
  KubeProxyMode : String := ""
  IngressControllerType : String := ""
  Architectures : String := ""
  KubeApiServerPort : Int := 0
  KubeRouter : String := ""
  LbKubeApiserverIp : String := ""
  WorkerAmount : Int := 0
deriving DecidableEq, Repr

structure ClusterStatus where
  Phase : String := ""
deriving DecidableEq, Repr

structure ClusterSecret where
  KubeadmToken : String := ""
  KubernetesToken : String := ""
deriving DecidableEq, Repr

structure ClusterNode where
  ID : String := ""
  Name : String := ""
  HostID : String := ""
  Host : Host := {}
  ClusterID : String := ""
  Role : String := ""
deriving DecidableEq, Repr

structure Cluster where
  ID : String := ""
  Name : String := ""
  Source : String := ""
  SpecID : String := ""
  SecretID : String := ""
  StatusID : String := ""
  PlanID : String := ""
  Spec : ClusterSpec := {}
  Secret : ClusterSecret := {}
  Status : ClusterStatus := {}
  Nodes : List ClusterNode := []
deriving DecidableEq, Repr

/-! ## `dto` -/

/-- The read-facing cluster view `dto.Cluster`; it embeds `model.Cluster`. -/
structure DtoCluster where
  Cluster : Cluster := {}
  NodeSize : Int := 0
  Status : String := ""
  Provider : String := ""
deriving DecidableEq, Repr

structure ClusterPage where
  Items : List DtoCluster := []
  Total : Int := 0
deriving DecidableEq, Repr

structure Endpoint where
  Address : String := ""
  Port : Int := 0
deriving DecidableEq, Repr

structure NodeCreate where
  Role : String := ""
  HostName : String := ""
deriving DecidableEq, Repr

structure ClusterCreate where
  Name : String := ""
  Version : String := ""
  Provider : String := ""
  Plan : String := ""
  WorkerAmount : Int := 0
  NetworkType : String := ""
  RuntimeType : String := ""
  DockerStorageDIr : String := ""
  ContainerdStorageDIr : String := ""
  FlannelBackend : String := ""
  CalicoIpv4poolIpip : String := ""
  KubeProxyMode : String := ""
  IngressControllerType : String := ""
  Architectures : String := ""
  KubePodSubnet : String := ""
  KubeServiceSubnet : String := ""
  KubeMaxPods : Int := 0
  Nodes : List NodeCreate := []
deriving DecidableEq, Repr

structure ClusterBatch where
  Items : List DtoCluster := []
  Operation : String := ""
deriving DecidableEq, Repr

/-! ## `constant` -/

/-- The constants of package `constant` that `cluster.go` refers to.  Their
values are declared outside `cluster.go`, so the service is parameterised by
them. -/
structure Constants where
  ClusterSourceLocal : String
  DefaultApiServerPort : Int
  ClusterWaiting : String
  ClusterRunning : String
  ClusterFailed : String
  ClusterProviderBareMetal : String
  NodeRoleNameMaster : String
  NodeRoleNameWorker : String
  BatchOperationDelete : String

/-! ## Collaborators -/

/-- One call made to a repository, to a workflow service or to the standard
output. -/
inductive Call where
  | planRepoGet (name : String)
  | hostRepoGet (name : String)
  | clusterRepoGet (name : String)
  | clusterRepoList
  | clusterRepoPage (num size : Int)
  | clusterRepoSave (cluster : Cluster)
  | clusterRepoDelete (name : String)
  | clusterNodeRepoFistMaster (clusterID : String)
  | clusterInitServiceInit (name : String)
  | clusterTerminalServiceTerminal (cluster : Cluster)
  | Println (err : Option Error)
deriving DecidableEq, Repr

/-- The collaborators held by `clusterService`, over a collaborator state `σ`.
`clusterRepoSave` receives a pointer in Go, so it also returns the cluster as
the repository left it. -/
structure Env (σ : Type) where
  planRepoGet : σ → String → Except Error Plan
  hostRepoGet : σ → String → Except Error Host
  clusterRepoGet : σ → String → Except Error Cluster
  clusterRepoList : σ → Except Error (List Cluster)
  clusterRepoPage : σ → Int → Int → Except Error (Int × List Cluster)
  clusterRepoSave : σ → Cluster → Option Error × Cluster × σ
  clusterRepoDelete : σ → String → Option Error × σ
  clusterNodeRepoFistMaster : σ → String → Except Error ClusterNode
  clusterInitServiceInit : σ → String → Option Error × σ
  clusterTerminalServiceTerminal : σ → Cluster → Option Error × σ
  GenerateKubeadmToken : Unit → String

/-- What a service method returns and does. -/
structure Outcome (σ : Type) (α : Type) where
  val : α
  err : Option Error
  store : σ
  calls : List Call

/-! ## `clusterService` -/

namespace clusterService

/-- The projection built from a stored cluster in `Get`, `List` and `Page`. -/
def toDto (mo : Cluster) : DtoCluster :=
  { Cluster := mo
    NodeSize := (mo.Nodes.length : Int)
    Status := mo.Status.Phase
    Provider := mo.Spec.Provider }

/-- Method `clusterService.Get`. -/
def Get {σ : Type} (env : Env σ) (name : String) (s : σ) : Outcome σ DtoCluster :=
  let clusterDTO : DtoCluster := {}
  match env.clusterRepoGet s name with
  | .error err => ⟨clusterDTO, some err, s, [.clusterRepoGet name]⟩
  | .ok mo =>
    let clusterDTO := { clusterDTO with Provider := mo.Spec.Provider }
    let clusterDTO := { clusterDTO with Cluster := mo }
    let clusterDTO := { clusterDTO with NodeSize := (mo.Nodes.length : Int) }
    let clusterDTO := { clusterDTO with Status := mo.Status.Phase }
    ⟨clusterDTO, none, s, [.clusterRepoGet name]⟩

/-- Method `clusterService.Page`. -/
def Page {σ : Type} (env : Env σ) (num size : Int) (s : σ) : Outcome σ ClusterPage :=
  let page : ClusterPage := {}
  match env.clusterRepoPage s num size with
  | .error _ => ⟨page, none, s, [.clusterRepoPage num size]⟩
  | .ok (total, mos) =>
    let page := mos.foldl (fun (p : ClusterPage) mo => { p with Items := p.Items ++ [toDto mo] }) page
    let page := { page with Total := total }
    ⟨page, none, s, [.clusterRepoPage num size]⟩

/-- The format `"%s-%d"` of `fmt.Sprintf` at a string and a counter. -/
def Sprintf (role : String) (no : Nat) : String :=
  role ++ "-" ++ toString no

/-- The `switch node.Role` of `Create`: the node with its name, and the worker
and master counters afterwards. -/
def nameNode (K : Constants) (node : ClusterNode) (workerNo masterNo : Nat) :
    ClusterNode × Nat × Nat :=
  if node.Role = K.NodeRoleNameMaster then
    ({ node with Name := Sprintf K.NodeRoleNameMaster masterNo }, workerNo, masterNo + 1)
  else if node.Role = K.NodeRoleNameWorker then
    ({ node with Name := Sprintf K.NodeRoleNameWorker workerNo }, workerNo + 1, masterNo)
  else
    (node, workerNo, masterNo)

/-- The loop `for _, nc := range creation.Nodes` of `Create`, from the cluster
and the counters reached so far.  A failed host lookup returns from `Create`. -/
def createNodes {σ : Type} (env : Env σ) (K : Constants) (s : σ) :
    List NodeCreate → Cluster → Nat → Nat → Except Error Cluster × List Call
  | [], cluster, _, _ => (.ok cluster, [])
  | nc :: rest, cluster, workerNo, masterNo =>
    let node : ClusterNode := { ClusterID := cluster.ID, Role := nc.Role }
    let named := nameNode K node workerNo masterNo
    match env.hostRepoGet s nc.HostName with
    | .error err => (.error err, [.hostRepoGet nc.HostName])
    | .ok host =>
      let node := { named.1 with HostID := host.ID, Host := host }
      let cluster := { cluster with Nodes := cluster.Nodes ++ [node] }
      let r := createNodes env K s rest cluster named.2.1 named.2.2
      (r.1, .hostRepoGet nc.HostName :: r.2)

/-- The part of `Create` before the node loop: the aggregate `cluster`, the
local variable `spec`, and the plan lookup for providers other than bare
metal.  `cluster.Spec = spec` copies the struct, so the later assignment to
`spec.WorkerAmount` changes the local variable only. -/
def createInit {σ : Type} (env : Env σ) (K : Constants) (creation : ClusterCreate) (s : σ) :
    Except Error (Cluster × ClusterSpec) × List Call :=
  let cluster : Cluster := { Name := creation.Name, Source := K.ClusterSourceLocal }
  let spec : ClusterSpec :=
    { RuntimeType := creation.RuntimeType
      DockerStorageDir := creation.DockerStorageDIr
      ContainerdStorageDir := creation.ContainerdStorageDIr
      NetworkType := creation.NetworkType
      KubePodSubnet := creation.KubePodSubnet
      KubeServiceSubnet := creation.KubeServiceSubnet
      Version := creation.Version
      Provider := creation.Provider
      FlannelBackend := creation.FlannelBackend
      CalicoIpv4poolIpip := creation.CalicoIpv4poolIpip
      KubeMaxPods := creation.KubeMaxPods
      KubeProxyMode := creation.KubeProxyMode
      IngressControllerType := creation.IngressControllerType
      Architectures := creation.Architectures
      KubeApiServerPort := K.DefaultApiServerPort }
  let status : ClusterStatus := { Phase := K.ClusterWaiting }
  let secret : ClusterSecret := { KubeadmToken := env.GenerateKubeadmToken () }
  let cluster := { cluster with Spec := spec }
  let cluster := { cluster with Status := status }
  let cluster := { cluster with Secret := secret }
  if cluster.Spec.Provider ≠ K.ClusterProviderBareMetal then
    let spec := { spec with WorkerAmount := creation.WorkerAmount }
    match env.planRepoGet s creation.Plan with
    | .error err => (.error err, [.planRepoGet creation.Plan])
    | .ok plan => (.ok ({ cluster with PlanID := plan.ID }, spec), [.planRepoGet creation.Plan])
  else
    (.ok (cluster, spec), [])

/-- The router assignment after the node loop of `Create`. -/
def setKubeRouter (cluster : Cluster) : Cluster :=
  match cluster.Nodes with
  | [] => cluster
  | node :: _ => { cluster with Spec := { cluster.Spec with KubeRouter := node.Host.Ip } }

/-- Method `clusterService.Create`. -/
def Create {σ : Type} (env : Env σ) (K : Constants) (creation : ClusterCreate) (s : σ) :
    Outcome σ Unit :=
  match createInit env K creation s with
  | (.error err, calls) => ⟨(), some err, s, calls⟩
  | (.ok (cluster, _), calls) =>
    match createNodes env K s creation.Nodes cluster 1 1 with
    | (.error err, calls2) => ⟨(), some err, s, calls ++ calls2⟩
    | (.ok cluster, calls2) =>
      let cluster := setKubeRouter cluster
      match env.clusterRepoSave s cluster with
      | (some err, _, s1) => ⟨(), some err, s1, calls ++ calls2 ++ [.clusterRepoSave cluster]⟩
      | (none, saved, s1) =>
        match env.clusterInitServiceInit s1 saved.Name with
        | (some err, s2) =>
          ⟨(), some err, s2,
            calls ++ calls2 ++ [.clusterRepoSave cluster, .clusterInitServiceInit saved.Name]⟩
        | (none, s2) =>
          ⟨(), none, s2,
            calls ++ calls2 ++ [.clusterRepoSave cluster, .clusterInitServiceInit saved.Name]⟩

/-- Method `clusterService.GetApiServerEndpoint`. -/
def GetApiServerEndpoint {σ : Type} (env : Env σ) (name : String) (s : σ) :
    Outcome σ Endpoint :=
  let endpoint : Endpoint := {}
  match env.clusterRepoGet s name with
  | .error err => ⟨endpoint, some err, s, [.clusterRepoGet name]⟩
  | .ok cluster =>
    let endpoint := { endpoint with Port := cluster.Spec.KubeApiServerPort }
    if cluster.Spec.LbKubeApiserverIp ≠ "" then
      let endpoint := { endpoint with Address := cluster.Spec.LbKubeApiserverIp }
      ⟨endpoint, none, s, [.clusterRepoGet name]⟩
    else
      match env.clusterNodeRepoFistMaster s cluster.ID with
      | .error err =>
        ⟨endpoint, some err, s, [.clusterRepoGet name, .clusterNodeRepoFistMaster cluster.ID]⟩
      | .ok master =>
        let endpoint := { endpoint with Address := master.Host.Ip }
        ⟨endpoint, none, s, [.clusterRepoGet name, .clusterNodeRepoFistMaster cluster.ID]⟩

/-- Method `clusterService.GetRouterEndpoint`. -/
def GetRouterEndpoint {σ : Type} (env : Env σ) (name : String) (s : σ) : Outcome σ Endpoint :=
  let endpoint : Endpoint := {}
  match env.clusterRepoGet s name with
  | .error err => ⟨endpoint, some err, s, [.clusterRepoGet name]⟩
  | .ok cluster =>
    ⟨{ endpoint with Address := cluster.Spec.KubeRouter }, none, s, [.clusterRepoGet name]⟩

/-- Method `clusterService.Delete`. -/
def Delete {σ : Type} (env : Env σ) (name : String) (s : σ) : Outcome σ Unit :=
  let r := env.clusterRepoDelete s name
  ⟨(), r.1, r.2, [.clusterRepoDelete name]⟩

/-- The loop `for _, item := range batch.Items` of `Batch` under
`case constant.BatchOperationDelete`, followed by the final `return nil`. -/
def batchDelete {σ : Type} (env : Env σ) (K : Constants) :
    List DtoCluster → σ → Outcome σ Unit
  | [], s => ⟨(), none, s, []⟩
  | item :: rest, s =>
    let got := Get env item.Cluster.Name s
    match got.err with
    | some err => ⟨(), some err, got.store, got.calls⟩
    | none =>
      let cluster := got.val
      if cluster.Status = K.ClusterRunning ∨ cluster.Status = K.ClusterFailed then
        let t := env.clusterTerminalServiceTerminal got.store cluster.Cluster
        let r := batchDelete env K rest t.2
        ⟨(), r.err, r.store,
          got.calls ++ [.clusterTerminalServiceTerminal cluster.Cluster] ++ r.calls⟩
      else
        let d := Delete env item.Cluster.Name got.store
        let r := batchDelete env K rest d.store
        ⟨(), r.err, r.store, got.calls ++ d.calls ++ [.Println d.err] ++ r.calls⟩

/-- Method `clusterService.Batch`. -/
def Batch {σ : Type} (env : Env σ) (K : Constants) (batch : ClusterBatch) (s : σ) :
    Outcome σ Unit :=
  if batch.Operation = K.BatchOperationDelete then
    batchDelete env K batch.Items s
  else
    ⟨(), none, s, []⟩

/-- Method `clusterService.List`. -/
def List {σ : Type} (env : Env σ) (s : σ) : Outcome σ (List DtoCluster) :=
  match env.clusterRepoList s with
  | .error _ => ⟨[], none, s, [.clusterRepoList]⟩
  | .ok mos => ⟨mos.foldl (fun clusterDTOS mo => clusterDTOS ++ [toDto mo]) [], none, s,
      [.clusterRepoList]⟩

end clusterService

/-! ## Concrete collaborators for the examples -/

/-- The values the spec names for the constants: roles "master" and "worker",
phases Waiting, Running and Failed, the bare-metal provider tag. -/
def constant : Constants :=
  { ClusterSourceLocal := "local"
    DefaultApiServerPort := 8443
    ClusterWaiting := "Waiting"
    ClusterRunning := "Running"
    ClusterFailed := "Failed"
    ClusterProviderBareMetal := "bareMetal"
    NodeRoleNameMaster := "master"
    NodeRoleNameWorker := "worker"
    BatchOperationDelete := "delete" }

/-- An in-memory collaborator state: the stored clusters, hosts and plans, a
flag that makes every read of the cluster repository fail, and a flag that makes
every delete fail. -/
structure MemStore where
  clusters : List Cluster := []
  hosts : List Host := []
  plans : List Plan := []
  down : Bool := false
  frozen : Bool := false
deriving DecidableEq, Repr

/-- Lookup by name in a list of records. -/
def lookup {α : Type} (key : α → String) (xs : List α) (name : String) : Except Error α :=
  match xs.find? (fun x => key x == name) with
  | some x => .ok x
  | none => .error "record not found"

/-- In-memory collaborators over `MemStore`.  Saving appends the cluster,
deleting removes it by name and fails when it is absent, the termination
workflow always reports a failure and leaves the record in place. -/
def memEnv : Env MemStore :=
  { planRepoGet := fun s name => lookup Plan.Name s.plans name
    hostRepoGet := fun s name => lookup Host.Name s.hosts name
    clusterRepoGet := fun s name =>
      if s.down then .error "store failure" else lookup Cluster.Name s.clusters name
    clusterRepoList := fun s =>
      if s.down then .error "store failure" else .ok s.clusters
    clusterRepoPage := fun s _ _ =>
      if s.down then .error "store failure" else .ok ((s.clusters.length : Int), s.clusters)
    clusterRepoSave := fun s c => (none, c, { s with clusters := s.clusters ++ [c] })
    clusterRepoDelete := fun s name =>
      if s.frozen then (some "store is read-only", s)
      else if s.clusters.any (fun c => c.Name == name) then
        (none, { s with clusters := s.clusters.filter (fun c => c.Name != name) })
      else
        (some "record not found", s)
    clusterNodeRepoFistMaster := fun s id =>
      match s.clusters.find? (fun c => c.ID == id) with
      | some c => lookup ClusterNode.Role c.Nodes "master"
      | none => .error "record not found"
    clusterInitServiceInit := fun s _ => (none, s)
    clusterTerminalServiceTerminal := fun s _ => (some "terminal failed", s)
    GenerateKubeadmToken := fun _ => "abcdef.0123456789abcdef" }

/-! ## Notions used in the statements, and example data -/

/-- A stored cluster behind a load balancer, without any node. -/
def lbCluster : Cluster :=
  { ID := "c1", Name := "demo"
    Spec := { LbKubeApiserverIp := "10.0.0.100", KubeApiServerPort := 8443 } }

/-- A stored cluster without load balancer whose second node is its first
master. -/
def plainCluster : Cluster :=
  { ID := "c2", Name := "plain"
    Spec := { KubeApiServerPort := 8443 }
    Nodes :=
      [ { Name := "worker-1", Role := "worker", Host := { Name := "h1", Ip := "10.0.0.1" } },
        { Name := "master-1", Role := "master", Host := { Name := "h2", Ip := "10.0.0.2" } } ] }

/-- A stored cluster without load balancer and without master. -/
def headlessCluster : Cluster :=
  { ID := "c3", Name := "headless"
    Spec := { KubeApiServerPort := 8443 }
    Nodes :=
      [ { Name := "worker-1", Role := "worker", Host := { Name := "h1", Ip := "10.0.0.1" } } ] }

/-- The cluster a call hands to `clusterRepo.Save`, if the call is one. -/
def Call.savedCluster : Call → Option Cluster
  | .clusterRepoSave cluster => some cluster
  | _ => none

/-- The clusters handed to `clusterRepo.Save` during a run, in call order. -/
def savedClusters (calls : List Call) : List Cluster :=
  calls.filterMap Call.savedCluster

/-- The calls that only read: the plan and host lookups of `Create`. -/
def Call.isLookup : Call → Bool
  | .planRepoGet _ => true
  | .hostRepoGet _ => true
  | _ => false

/-- Every plan (when the provider needs one) and every host of the request
resolves in the collaborator state `s`. -/
def Resolves {σ : Type} (env : Env σ) (K : Constants) (creation : ClusterCreate) (s : σ) : Prop :=
  (creation.Provider ≠ K.ClusterProviderBareMetal →
    ∃ plan, env.planRepoGet s creation.Plan = .ok plan) ∧
  ∀ nc ∈ creation.Nodes, ∃ host, env.hostRepoGet s nc.HostName = .ok host

/-- Three registered hosts and one plan, no cluster yet. -/
def demoStore : MemStore :=
  { hosts :=
      [ { ID := "h-1", Name := "node-a", Ip := "10.0.0.1" },
        { ID := "h-2", Name := "node-b", Ip := "10.0.0.2" },
        { ID := "h-3", Name := "node-c", Ip := "10.0.0.3" } ]
    plans := [ { ID := "p-1", Name := "small" } ] }

/-- A bare-metal request whose first node is a worker and whose masters and
workers interleave. -/
def demoCreate : ClusterCreate :=
  { Name := "demo", Provider := "bareMetal"
    Nodes :=
      [ { Role := "worker", HostName := "node-a" },
        { Role := "master", HostName := "node-b" },
        { Role := "worker", HostName := "node-c" },
        { Role := "master", HostName := "node-a" } ] }

/-- A request for a provider with a plan, asking for three workers. -/
def planCreate : ClusterCreate :=
  { Name := "sized", Provider := "plan", Plan := "small", WorkerAmount := 3 }

/-- A request whose second node names a host that is not registered. -/
def brokenCreate : ClusterCreate :=
  { Name := "broken", Provider := "bareMetal"
    Nodes :=
      [ { Role := "master", HostName := "node-b" },
        { Role := "worker", HostName := "node-x" } ] }

/-- The calls that remove a cluster directly or start its termination. -/
def Call.isRemoval : Call → Bool
  | .clusterRepoDelete _ => true
  | .clusterTerminalServiceTerminal _ => true
  | _ => false

/-- The state and calls of `Batch` with operation Delete after the first `k`
items of `items`. -/
def deleteRun {σ : Type} (env : Env σ) (K : Constants) (items : List DtoCluster) (s : σ)
    (k : Nat) : Outcome σ Unit :=
  clusterService.Batch env K { Items := items.take k, Operation := K.BatchOperationDelete } s

/-- The lookups of the first `k` items succeed, each in the state in which
`Batch` reaches the item. -/
def LookupsSucceed {σ : Type} (env : Env σ) (K : Constants) (items : List DtoCluster) (s : σ)
    (k : Nat) : Prop :=
  ∀ j (hj : j < items.length), j < k →
    ∃ mo, env.clusterRepoGet (deleteRun env K items s j).store items[j].Cluster.Name = .ok mo

/-- Three stored clusters: A is Waiting, B is Running, C is Failed. -/
def abcStore : MemStore :=
  { clusters :=
      [ { ID := "a", Name := "A", Status := { Phase := "Waiting" } },
        { ID := "b", Name := "B", Status := { Phase := "Running" } },
        { ID := "c", Name := "C", Status := { Phase := "Failed" } } ] }

/-- The batch items naming A, B and C. -/
def abcItems : List DtoCluster :=
  [ { Cluster := { Name := "A" } }, { Cluster := { Name := "B" } },
    { Cluster := { Name := "C" } } ]

/-- The batch items naming A, the unknown cluster X, and B. -/
def axbItems : List DtoCluster :=
  [ { Cluster := { Name := "A" } }, { Cluster := { Name := "X" } },
    { Cluster := { Name := "B" } } ]

/-! ## Read projections -/


/-- C10: when the repository read behind `List` fails, `List` returns the empty
slice and a nil error; when the read behind `Page` fails, `Page` returns the
zero page (no items, total 0) and a nil error; `List` and `Page` return a nil
error in every case; `Get` returns the repository error unchanged. -/
theorem List_Page_suppress_store_error {σ : Type} (env : Env σ) (s : σ) (num size : Int)
    (name : String) :
    (∀ e, env.clusterRepoList s = .error e →
      (clusterService.List env s).val = [] ∧ (clusterService.List env s).err = none) ∧
    (∀ e, env.clusterRepoPage s num size = .error e →
      (clusterService.Page env num size s).val = { Items := [], Total := 0 } ∧
      (clusterService.Page env num size s).err = none) ∧
    (clusterService.List env s).err = none ∧
    (clusterService.Page env num size s).err = none ∧
    (∀ e, env.clusterRepoGet s name = .error e →
      (clusterService.Get env name s).err = some e) := by
  refine ⟨?_, ?_, ?_, ?_, ?_⟩
  · intro e h
    simp [clusterService.List, h]
  · intro e h
    simp [clusterService.Page, h]
  · unfold clusterService.List
    cases env.clusterRepoList s <;> rfl
  · unfold clusterService.Page
    cases env.clusterRepoPage s num size <;> rfl
  · intro e h
    simp [clusterService.Get, h]

/-- C10 at a store that is down: `List` and `Page` answer empty with a nil
error, `Get` answers the store failure. -/
theorem List_Page_suppress_store_error_witness :
    ((clusterService.List memEnv { down := true }).val = [] ∧
      (clusterService.List memEnv { down := true }).err = none) ∧
    ((clusterService.Page memEnv 1 10 { down := true }).val = { Items := [], Total := 0 } ∧
      (clusterService.Page memEnv 1 10 { down := true }).err = none) ∧
    (clusterService.Get memEnv "demo" { down := true }).err = some "store failure" :=
  ⟨(List_Page_suppress_store_error memEnv { down := true } 1 10 "demo").1 "store failure" rfl,
   (List_Page_suppress_store_error memEnv { down := true } 1 10 "demo").2.1 "store failure" rfl,
   (List_Page_suppress_store_error memEnv { down := true } 1 10 "demo").2.2.2.2
      "store failure" rfl⟩

/-! ## Endpoint resolution -/

/-- C5: for a stored cluster with a non-empty load-balancer address,
`GetApiServerEndpoint` returns that address with the stored API-server port and
a nil error, and its only collaborator call is the cluster lookup: the
first-master lookup is not made, so the answer does not depend on the nodes. -/
theorem GetApiServerEndpoint_lb {σ : Type} (env : Env σ) (s : σ) (name : String)
    (cluster : Cluster) (hget : env.clusterRepoGet s name = .ok cluster)
    (hlb : cluster.Spec.LbKubeApiserverIp ≠ "") :
    (clusterService.GetApiServerEndpoint env name s).val =
        { Address := cluster.Spec.LbKubeApiserverIp, Port := cluster.Spec.KubeApiServerPort } ∧
    (clusterService.GetApiServerEndpoint env name s).err = none ∧
    (clusterService.GetApiServerEndpoint env name s).store = s ∧
    (clusterService.GetApiServerEndpoint env name s).calls = [.clusterRepoGet name] := by
  simp [clusterService.GetApiServerEndpoint, hget, hlb]

/-- C5 at a cluster that has a load-balancer address and no master node. -/
theorem GetApiServerEndpoint_lb_witness :
    (clusterService.GetApiServerEndpoint memEnv "demo" { clusters := [lbCluster] }).val =
        { Address := "10.0.0.100", Port := 8443 } ∧
    (clusterService.GetApiServerEndpoint memEnv "demo" { clusters := [lbCluster] }).err = none ∧
    (clusterService.GetApiServerEndpoint memEnv "demo" { clusters := [lbCluster] }).store =
        { clusters := [lbCluster] } ∧
    (clusterService.GetApiServerEndpoint memEnv "demo" { clusters := [lbCluster] }).calls =
        [.clusterRepoGet "demo"] :=
  GetApiServerEndpoint_lb memEnv { clusters := [lbCluster] } "demo" lbCluster rfl (by decide)

/-- C6: for a stored cluster with an empty load-balancer address,
`GetApiServerEndpoint` asks the node repository for the first master of the
cluster; when that lookup fails it returns the lookup error, and when it
answers a node it returns the IP of that node host with the stored API-server
port and a nil error. -/
theorem GetApiServerEndpoint_first_master {σ : Type} (env : Env σ) (s : σ) (name : String)
    (cluster : Cluster) (hget : env.clusterRepoGet s name = .ok cluster)
    (hlb : cluster.Spec.LbKubeApiserverIp = "") :
    (clusterService.GetApiServerEndpoint env name s).calls =
        [.clusterRepoGet name, .clusterNodeRepoFistMaster cluster.ID] ∧
    (∀ e, env.clusterNodeRepoFistMaster s cluster.ID = .error e →
      (clusterService.GetApiServerEndpoint env name s).err = some e) ∧
    (∀ master, env.clusterNodeRepoFistMaster s cluster.ID = .ok master →
      (clusterService.GetApiServerEndpoint env name s).val =
          { Address := master.Host.Ip, Port := cluster.Spec.KubeApiServerPort } ∧
      (clusterService.GetApiServerEndpoint env name s).err = none) := by
  refine ⟨?_, ?_, ?_⟩
  · simp only [clusterService.GetApiServerEndpoint, hget, hlb]
    cases env.clusterNodeRepoFistMaster s cluster.ID <;> simp
  · intro e h
    simp [clusterService.GetApiServerEndpoint, hget, hlb, h]
  · intro master h
    simp [clusterService.GetApiServerEndpoint, hget, hlb, h]

/-- C6 at a cluster with a master (the master address is returned) and at a
cluster without one (the not-found error is returned). -/
theorem GetApiServerEndpoint_first_master_witness :
    ((clusterService.GetApiServerEndpoint memEnv "plain"
        { clusters := [plainCluster, headlessCluster] }).val =
        { Address := "10.0.0.2", Port := 8443 } ∧
      (clusterService.GetApiServerEndpoint memEnv "plain"
        { clusters := [plainCluster, headlessCluster] }).err = none) ∧
    (clusterService.GetApiServerEndpoint memEnv "headless"
        { clusters := [plainCluster, headlessCluster] }).err = some "record not found" :=
  ⟨(GetApiServerEndpoint_first_master memEnv { clusters := [plainCluster, headlessCluster] }
      "plain" plainCluster rfl rfl).2.2 _ rfl,
   (GetApiServerEndpoint_first_master memEnv { clusters := [plainCluster, headlessCluster] }
      "headless" headlessCluster rfl rfl).2.1 _ rfl⟩

/-! ## Cluster creation -/

theorem nameNode_fst_role (K : Constants) (node : ClusterNode) (w m : Nat) :
    (clusterService.nameNode K node w m).1.Role = node.Role := by
  unfold clusterService.nameNode
  split_ifs <;> rfl

theorem nameNode_master (K : Constants) (node : ClusterNode) (w m : Nat)
    (h : node.Role = K.NodeRoleNameMaster) :
    clusterService.nameNode K node w m =
      ({ node with Name := clusterService.Sprintf K.NodeRoleNameMaster m }, w, m + 1) := by
  simp [clusterService.nameNode, h]

theorem nameNode_worker (K : Constants) (node : ClusterNode) (w m : Nat)
    (hm : ¬ node.Role = K.NodeRoleNameMaster) (h : node.Role = K.NodeRoleNameWorker) :
    clusterService.nameNode K node w m =
      ({ node with Name := clusterService.Sprintf K.NodeRoleNameWorker w }, w + 1, m) := by
  unfold clusterService.nameNode
  rw [if_neg hm, if_pos h]

theorem nameNode_other (K : Constants) (node : ClusterNode) (w m : Nat)
    (hm : ¬ node.Role = K.NodeRoleNameMaster) (h : ¬ node.Role = K.NodeRoleNameWorker) :
    clusterService.nameNode K node w m = (node, w, m) := by
  unfold clusterService.nameNode
  rw [if_neg hm, if_neg h]

theorem createNodes_cons_ok {σ : Type} (env : Env σ) (K : Constants) (s : σ)
    (nc : NodeCreate) (rest : List NodeCreate) (cluster : Cluster) (w m : Nat) (host : Host)
    (hhost : env.hostRepoGet s nc.HostName = .ok host) :
    clusterService.createNodes env K s (nc :: rest) cluster w m =
      ((clusterService.createNodes env K s rest
          { cluster with Nodes := cluster.Nodes ++
            [{ (clusterService.nameNode K { ClusterID := cluster.ID, Role := nc.Role } w m).1 with
                HostID := host.ID, Host := host }] }
          (clusterService.nameNode K { ClusterID := cluster.ID, Role := nc.Role } w m).2.1
          (clusterService.nameNode K { ClusterID := cluster.ID, Role := nc.Role } w m).2.2).1,
        Call.hostRepoGet nc.HostName ::
        (clusterService.createNodes env K s rest
          { cluster with Nodes := cluster.Nodes ++
            [{ (clusterService.nameNode K { ClusterID := cluster.ID, Role := nc.Role } w m).1 with
                HostID := host.ID, Host := host }] }
          (clusterService.nameNode K { ClusterID := cluster.ID, Role := nc.Role } w m).2.1
          (clusterService.nameNode K { ClusterID := cluster.ID, Role := nc.Role } w m).2.2).2) := by
  simp [clusterService.createNodes, hhost]

theorem range_succ_map_shift (f : Nat → String) (m n : Nat) :
    (List.range (n + 1)).map (fun k => f (m + k)) =
      f m :: (List.range n).map (fun k => f (m + 1 + k)) := by
  rw [List.range_succ_eq_map, List.map_cons, List.map_map]
  congr 1
  apply List.map_congr_left
  intro k _
  simp [Function.comp_def, Nat.add_assoc, Nat.add_comm 1 k]

theorem createNodes_ok {σ : Type} (env : Env σ) (K : Constants) (s : σ) :
    ∀ (descs : List NodeCreate) (cluster : Cluster) (w m : Nat),
      (∀ nc ∈ descs, ∃ host, env.hostRepoGet s nc.HostName = .ok host) →
      ∃ newNodes : List ClusterNode,
        clusterService.createNodes env K s descs cluster w m =
          (.ok { cluster with Nodes := cluster.Nodes ++ newNodes },
            descs.map (fun nc => Call.hostRepoGet nc.HostName)) ∧
        newNodes.map (fun n => n.Role) = descs.map (fun nc => nc.Role) ∧
        descs.map (fun nc => env.hostRepoGet s nc.HostName) =
          newNodes.map (fun n => Except.ok n.Host) ∧
        (newNodes.filter (fun n => decide (n.Role = K.NodeRoleNameMaster))).map (fun n => n.Name) =
          (List.range (descs.countP (fun nc => decide (nc.Role = K.NodeRoleNameMaster)))).map
            (fun k => clusterService.Sprintf K.NodeRoleNameMaster (m + k)) ∧
        (K.NodeRoleNameMaster ≠ K.NodeRoleNameWorker →
          (newNodes.filter (fun n => decide (n.Role = K.NodeRoleNameWorker))).map
              (fun n => n.Name) =
            (List.range (descs.countP (fun nc => decide (nc.Role = K.NodeRoleNameWorker)))).map
              (fun k => clusterService.Sprintf K.NodeRoleNameWorker (w + k))) := by
  intro descs
  induction descs with
  | nil =>
    intro cluster w m _
    exact ⟨[], by simp [clusterService.createNodes], rfl, rfl, rfl, fun _ => rfl⟩
  | cons nc rest ih =>
    intro cluster w m hres
    obtain ⟨host, hhost⟩ := hres nc (List.mem_cons_self _ _)
    have hrest : ∀ x ∈ rest, ∃ host, env.hostRepoGet s x.HostName = .ok host :=
      fun x hx => hres x (List.mem_cons_of_mem _ hx)
    rw [createNodes_cons_ok env K s nc rest cluster w m host hhost]
    generalize hnamed :
      clusterService.nameNode K { ClusterID := cluster.ID, Role := nc.Role } w m = named
    obtain ⟨tl, h1, h2, h3, h4, h5⟩ := ih
      { cluster with Nodes := cluster.Nodes ++ [{ named.1 with HostID := host.ID, Host := host }] }
      named.2.1 named.2.2 hrest
    have hrole : named.1.Role = nc.Role := by
      rw [← hnamed]; exact nameNode_fst_role K _ w m
    refine ⟨{ named.1 with HostID := host.ID, Host := host } :: tl, ?_, ?_, ?_, ?_, ?_⟩
    · rw [h1]; simp
    · simp [h2, hrole]
    · simp [h3, hhost]
    · by_cases hm : nc.Role = K.NodeRoleNameMaster
      · have hn := nameNode_master K { ClusterID := cluster.ID, Role := nc.Role } w m hm
        rw [hnamed] at hn
        subst hn
        rw [List.countP_cons_of_pos _ _ (by simpa using hm), range_succ_map_shift,
          List.filter_cons_of_pos (by simpa using hm)]
        simpa using h4
      · rw [List.countP_cons_of_neg _ _ (by simpa using hm),
          List.filter_cons_of_neg (by simpa [hrole] using hm)]
        have hcount : named.2.2 = m := by
          rw [← hnamed]
          by_cases hw : nc.Role = K.NodeRoleNameWorker
          · rw [nameNode_worker K _ w m hm hw]
          · rw [nameNode_other K _ w m hm hw]
        rw [hcount] at h4
        exact h4
    · intro hne
      by_cases hw : nc.Role = K.NodeRoleNameWorker
      · have hm : ¬ nc.Role = K.NodeRoleNameMaster := fun h => hne (h.symm.trans hw)
        have hn := nameNode_worker K { ClusterID := cluster.ID, Role := nc.Role } w m hm hw
        rw [hnamed] at hn
        subst hn
        rw [List.countP_cons_of_pos _ _ (by simpa using hw), range_succ_map_shift,
          List.filter_cons_of_pos (by simpa using hw)]
        simpa using h5 hne
      · rw [List.countP_cons_of_neg _ _ (by simpa using hw),
          List.filter_cons_of_neg (by simpa [hrole] using hw)]
        have hcount : named.2.1 = w := by
          rw [← hnamed]
          by_cases hm : nc.Role = K.NodeRoleNameMaster
          · rw [nameNode_master K _ w m hm]
          · rw [nameNode_other K _ w m hm hw]
        have h5 := h5 hne
        rw [hcount] at h5
        exact h5

theorem createNodes_lookups {σ : Type} (env : Env σ) (K : Constants) (s : σ) :
    ∀ (descs : List NodeCreate) (cluster : Cluster) (w m : Nat),
      ∀ call ∈ (clusterService.createNodes env K s descs cluster w m).2, call.isLookup = true := by
  intro descs
  induction descs with
  | nil => intro cluster w m call h; simp [clusterService.createNodes] at h
  | cons nc rest ih =>
    intro cluster w m call h
    cases hhost : env.hostRepoGet s nc.HostName with
    | error e =>
      simp [clusterService.createNodes, hhost] at h
      subst h; rfl
    | ok host =>
      rw [createNodes_cons_ok env K s nc rest cluster w m host hhost] at h
      rcases List.mem_cons.1 h with h | h
      · subst h; rfl
      · exact ih _ _ _ call h

theorem createNodes_error {σ : Type} (env : Env σ) (K : Constants) (s : σ) :
    ∀ (descs : List NodeCreate),
      (∃ nc ∈ descs, ∃ e, env.hostRepoGet s nc.HostName = .error e) →
      ∃ pre nc post e, descs = pre ++ nc :: post ∧
        (∀ x ∈ pre, ∃ host, env.hostRepoGet s x.HostName = .ok host) ∧
        env.hostRepoGet s nc.HostName = .error e ∧
        ∀ (cluster : Cluster) (w m : Nat),
          (clusterService.createNodes env K s descs cluster w m).1 = .error e := by
  intro descs
  induction descs with
  | nil => rintro ⟨nc, h, _⟩; cases h
  | cons nc rest ih =>
    rintro ⟨x, hx, e, he⟩
    cases hhost : env.hostRepoGet s nc.HostName with
    | error e0 =>
      refine ⟨[], nc, rest, e0, rfl, ?_, hhost, ?_⟩
      · intro y hy; cases hy
      · intro cluster w m
        simp [clusterService.createNodes, hhost]
    | ok host =>
      have hx2 : x ∈ rest := by
        rcases List.mem_cons.1 hx with h | h
        · subst h; rw [hhost] at he; cases he
        · exact h
      obtain ⟨pre, y, post, e1, hsplit, hpre, hy, hrun⟩ := ih ⟨x, hx2, e, he⟩
      refine ⟨nc :: pre, y, post, e1, by rw [hsplit]; rfl, ?_, hy, ?_⟩
      · intro z hz
        rcases List.mem_cons.1 hz with h | h
        · subst h; exact ⟨host, hhost⟩
        · exact hpre z h
      · intro cluster w m
        rw [createNodes_cons_ok env K s nc rest cluster w m host hhost]
        exact hrun _ _ _

theorem createInit_lookups {σ : Type} (env : Env σ) (K : Constants) (creation : ClusterCreate)
    (s : σ) : ∀ call ∈ (clusterService.createInit env K creation s).2, call.isLookup = true := by
  intro call h
  unfold clusterService.createInit at h
  simp only at h
  split_ifs at h
  · cases hp : env.planRepoGet s creation.Plan <;> rw [hp] at h <;> simp at h <;>
      (subst h; rfl)
  · simp at h

theorem createInit_error {σ : Type} (env : Env σ) (K : Constants) (creation : ClusterCreate)
    (s : σ) (e : Error) (hprov : creation.Provider ≠ K.ClusterProviderBareMetal)
    (hplan : env.planRepoGet s creation.Plan = .error e) :
    (clusterService.createInit env K creation s).1 = .error e := by
  simp [clusterService.createInit, hprov, hplan]

theorem createInit_ok {σ : Type} (env : Env σ) (K : Constants) (creation : ClusterCreate)
    (s : σ)
    (hplan : creation.Provider ≠ K.ClusterProviderBareMetal →
      ∃ plan, env.planRepoGet s creation.Plan = .ok plan) :
    ∃ cluster spec, (clusterService.createInit env K creation s).1 = .ok (cluster, spec) ∧
      cluster.Nodes = [] ∧ cluster.Spec.KubeRouter = "" ∧ cluster.Spec.WorkerAmount = 0 ∧
      (creation.Provider ≠ K.ClusterProviderBareMetal →
        spec.WorkerAmount = creation.WorkerAmount) := by
  by_cases hprov : creation.Provider = K.ClusterProviderBareMetal
  · simp only [clusterService.createInit, hprov, ne_eq, not_true_eq_false, if_false]
    exact ⟨_, _, rfl, rfl, rfl, rfl, fun h => h.elim⟩
  · obtain ⟨plan, hp⟩ := hplan hprov
    simp only [clusterService.createInit, hprov, ne_eq, not_false_eq_true, if_true, hp]
    exact ⟨_, _, rfl, rfl, rfl, rfl, fun _ => rfl⟩

theorem savedClusters_lookups (calls : List Call) (h : ∀ call ∈ calls, call.isLookup = true) :
    savedClusters calls = [] := by
  unfold savedClusters
  rw [List.filterMap_eq_nil_iff]
  intro call hc
  have := h call hc
  cases call <;> simp_all [Call.isLookup, Call.savedCluster]

theorem setKubeRouter_Nodes (cluster : Cluster) :
    (clusterService.setKubeRouter cluster).Nodes = cluster.Nodes := by
  unfold clusterService.setKubeRouter
  split <;> rfl

theorem setKubeRouter_WorkerAmount (cluster : Cluster) :
    (clusterService.setKubeRouter cluster).Spec.WorkerAmount = cluster.Spec.WorkerAmount := by
  unfold clusterService.setKubeRouter
  split <;> rfl

theorem Create_saved {σ : Type} (env : Env σ) (K : Constants) (creation : ClusterCreate)
    (s : σ) (c0 c1 : Cluster) (spec : ClusterSpec)
    (h0 : (clusterService.createInit env K creation s).1 = .ok (c0, spec))
    (h1 : (clusterService.createNodes env K s creation.Nodes c0 1 1).1 = .ok c1) :
    savedClusters (clusterService.Create env K creation s).calls =
      [clusterService.setKubeRouter c1] := by
  have l0 := savedClusters_lookups _ (createInit_lookups env K creation s)
  have l1 := savedClusters_lookups _ (createNodes_lookups env K s creation.Nodes c0 1 1)
  unfold clusterService.Create
  rcases hi : clusterService.createInit env K creation s with ⟨r0, calls0⟩
  rw [hi] at h0 l0
  simp only at h0 l0
  subst h0
  simp only
  rcases hn : clusterService.createNodes env K s creation.Nodes c0 1 1 with ⟨r1, calls1⟩
  rw [hn] at h1 l1
  simp only at h1 l1
  subst h1
  simp only
  rcases hs : env.clusterRepoSave s (clusterService.setKubeRouter c1) with ⟨_ | e, saved, s1⟩
  · simp only
    rcases env.clusterInitServiceInit s1 saved.Name with ⟨_ | e2, s2⟩ <;>
      · simp only [savedClusters, List.filterMap_append] at l0 l1 ⊢
        simp [l0, l1, Call.savedCluster]
  · simp only [savedClusters, List.filterMap_append] at l0 l1 ⊢
    simp [l0, l1, Call.savedCluster]

theorem Create_init_error {σ : Type} (env : Env σ) (K : Constants) (creation : ClusterCreate)
    (s : σ) (e : Error) (h0 : (clusterService.createInit env K creation s).1 = .error e) :
    clusterService.Create env K creation s =
      ⟨(), some e, s, (clusterService.createInit env K creation s).2⟩ := by
  unfold clusterService.Create
  rcases hi : clusterService.createInit env K creation s with ⟨r0, calls0⟩
  rw [hi] at h0
  simp only at h0
  subst h0
  rfl

theorem Create_nodes_error {σ : Type} (env : Env σ) (K : Constants) (creation : ClusterCreate)
    (s : σ) (c0 : Cluster) (spec : ClusterSpec) (e : Error)
    (h0 : (clusterService.createInit env K creation s).1 = .ok (c0, spec))
    (h1 : (clusterService.createNodes env K s creation.Nodes c0 1 1).1 = .error e) :
    clusterService.Create env K creation s =
      ⟨(), some e, s, (clusterService.createInit env K creation s).2 ++
        (clusterService.createNodes env K s creation.Nodes c0 1 1).2⟩ := by
  unfold clusterService.Create
  rcases hi : clusterService.createInit env K creation s with ⟨r0, calls0⟩
  rw [hi] at h0
  simp only at h0
  subst h0
  simp only
  rcases hn : clusterService.createNodes env K s creation.Nodes c0 1 1 with ⟨r1, calls1⟩
  rw [hn] at h1
  simp only at h1
  subst h1
  rfl

theorem lookups_no_write (calls : List Call) (h : ∀ call ∈ calls, call.isLookup = true) :
    (∀ cluster, Call.clusterRepoSave cluster ∉ calls) ∧
    (∀ name, Call.clusterInitServiceInit name ∉ calls) := by
  constructor
  · intro cluster hmem
    have := h _ hmem
    simp [Call.isLookup] at this
  · intro name hmem
    have := h _ hmem
    simp [Call.isLookup] at this

/-- The saved aggregate of a request that resolves: the cluster built by the
initial part and the node loop, after the router assignment. -/
theorem Create_resolves {σ : Type} (env : Env σ) (K : Constants) (creation : ClusterCreate)
    (s : σ) (hres : Resolves env K creation s) :
    ∃ (c0 : Cluster) (spec : ClusterSpec) (newNodes : List ClusterNode),
      (clusterService.createInit env K creation s).1 = .ok (c0, spec) ∧
      c0.Nodes = [] ∧ c0.Spec.KubeRouter = "" ∧ c0.Spec.WorkerAmount = 0 ∧
      (creation.Provider ≠ K.ClusterProviderBareMetal →
        spec.WorkerAmount = creation.WorkerAmount) ∧
      savedClusters (clusterService.Create env K creation s).calls =
        [clusterService.setKubeRouter { c0 with Nodes := newNodes }] ∧
      newNodes.map (fun n => n.Role) = creation.Nodes.map (fun nc => nc.Role) ∧
      creation.Nodes.map (fun nc => env.hostRepoGet s nc.HostName) =
        newNodes.map (fun n => Except.ok n.Host) ∧
      (newNodes.filter (fun n => decide (n.Role = K.NodeRoleNameMaster))).map (fun n => n.Name) =
        (List.range (creation.Nodes.countP
            (fun nc => decide (nc.Role = K.NodeRoleNameMaster)))).map
          (fun k => clusterService.Sprintf K.NodeRoleNameMaster (1 + k)) ∧
      (K.NodeRoleNameMaster ≠ K.NodeRoleNameWorker →
        (newNodes.filter (fun n => decide (n.Role = K.NodeRoleNameWorker))).map
            (fun n => n.Name) =
          (List.range (creation.Nodes.countP
              (fun nc => decide (nc.Role = K.NodeRoleNameWorker)))).map
            (fun k => clusterService.Sprintf K.NodeRoleNameWorker (1 + k))) := by
  obtain ⟨c0, spec, h0, hn0, hr0, hw0, hsp⟩ := createInit_ok env K creation s hres.1
  obtain ⟨newNodes, h1, h2, h3, h4, h5⟩ := createNodes_ok env K s creation.Nodes c0 1 1 hres.2
  refine ⟨c0, spec, newNodes, h0, hn0, hr0, hw0, hsp, ?_, h2, h3, h4, h5⟩
  have := Create_saved env K creation s c0 _ spec h0 (by rw [h1])
  rw [this, hn0, List.nil_append]

theorem demoCreate_resolves : Resolves memEnv constant demoCreate demoStore := by
  refine ⟨fun h => absurd rfl h, ?_⟩
  intro nc hnc
  simp only [demoCreate, List.mem_cons, List.mem_singleton, List.not_mem_nil, or_false] at hnc
  rcases hnc with rfl | rfl | rfl | rfl <;> exact ⟨_, rfl⟩

/-- C1: when the plan (if the provider needs one) and all hosts of a request
resolve, `Create` hands exactly one cluster to the store; its node list has one
node per node descriptor, in request order, with the role of the descriptor and
the host resolved for it; the names of its Master-role nodes are, in order,
master-1 .. master-N for the N Master descriptors, and the names of its
Worker-role nodes are worker-1 .. worker-M for the M Worker descriptors,
whatever the interleaving. -/
theorem Create_node_names {σ : Type} (env : Env σ) (K : Constants) (creation : ClusterCreate)
    (s : σ) (hres : Resolves env K creation s) :
    ∃ cluster : Cluster,
      savedClusters (clusterService.Create env K creation s).calls = [cluster] ∧
      cluster.Nodes.map (fun n => n.Role) = creation.Nodes.map (fun nc => nc.Role) ∧
      creation.Nodes.map (fun nc => env.hostRepoGet s nc.HostName) =
        cluster.Nodes.map (fun n => Except.ok n.Host) ∧
      (cluster.Nodes.filter (fun n => decide (n.Role = K.NodeRoleNameMaster))).map
          (fun n => n.Name) =
        (List.range (creation.Nodes.countP
            (fun nc => decide (nc.Role = K.NodeRoleNameMaster)))).map
          (fun k => clusterService.Sprintf K.NodeRoleNameMaster (k + 1)) ∧
      (cluster.Nodes.filter (fun n => decide (n.Role = K.NodeRoleNameWorker))).map
          (fun n => n.Name) =
        (List.range (creation.Nodes.countP
            (fun nc => decide (nc.Role = K.NodeRoleNameWorker)))).map
          (fun k => clusterService.Sprintf K.NodeRoleNameWorker (k + 1)) := by
  obtain ⟨c0, spec, newNodes, _, _, _, _, _, hsaved, h2, h3, h4, h5⟩ :=
    Create_resolves env K creation s hres
  refine ⟨_, hsaved, ?_, ?_, ?_, ?_⟩
  · rw [setKubeRouter_Nodes]; exact h2
  · rw [setKubeRouter_Nodes]; exact h3
  · rw [setKubeRouter_Nodes]
    simpa [Nat.add_comm] using h4
  · rw [setKubeRouter_Nodes]
    by_cases hne : K.NodeRoleNameMaster = K.NodeRoleNameWorker
    · rw [← hne]
      simpa [Nat.add_comm] using h4
    · simpa [Nat.add_comm] using h5 hne

/-- C1 at a request with nodes worker, master, worker, master: the saved node
names are worker-1, master-1, worker-2, master-2. -/
theorem Create_node_names_witness :
    ∃ cluster : Cluster,
      savedClusters (clusterService.Create memEnv constant demoCreate demoStore).calls =
        [cluster] ∧
      cluster.Nodes.map (fun n => n.Role) = ["worker", "master", "worker", "master"] ∧
      demoCreate.Nodes.map (fun nc => memEnv.hostRepoGet demoStore nc.HostName) =
        cluster.Nodes.map (fun n => Except.ok n.Host) ∧
      (cluster.Nodes.filter (fun n => decide (n.Role = "master"))).map (fun n => n.Name) =
        ["master-1", "master-2"] ∧
      (cluster.Nodes.filter (fun n => decide (n.Role = "worker"))).map (fun n => n.Name) =
        ["worker-1", "worker-2"] :=
  Create_node_names memEnv constant demoCreate demoStore demoCreate_resolves

/-- C4: when the plan (if the provider needs one) and all hosts of a request
resolve, the cluster that `Create` hands to the store has as router address the
IP of the host resolved for the first node descriptor of the request, whatever
the role of that descriptor; when the request has no node descriptor the router
address is the empty string. -/
theorem Create_router {σ : Type} (env : Env σ) (K : Constants) (creation : ClusterCreate)
    (s : σ) (hres : Resolves env K creation s) :
    ∃ cluster : Cluster,
      savedClusters (clusterService.Create env K creation s).calls = [cluster] ∧
      (creation.Nodes = [] → cluster.Spec.KubeRouter = "") ∧
      (∀ nc rest host, creation.Nodes = nc :: rest →
        env.hostRepoGet s nc.HostName = .ok host → cluster.Spec.KubeRouter = host.Ip) := by
  obtain ⟨c0, spec, newNodes, _, _, hr0, _, _, hsaved, h2, h3, _, _⟩ :=
    Create_resolves env K creation s hres
  refine ⟨_, hsaved, ?_, ?_⟩
  · intro hnil
    rw [hnil] at h2
    have hnn : newNodes = [] := by simpa using h2
    subst hnn
    simpa [clusterService.setKubeRouter] using hr0
  · intro nc rest host hcons hhost
    rw [hcons] at h3
    cases newNodes with
    | nil => simp at h3
    | cons n tl =>
      simp only [List.map_cons, List.cons.injEq] at h3
      rw [hhost] at h3
      have hn : host = n.Host := by
        have := h3.1
        injection this
      simp [clusterService.setKubeRouter, hn]

/-- C4 at a request whose first node is a worker on host node-a: the router
address is the address of node-a. -/
theorem Create_router_witness :
    ∃ cluster : Cluster,
      savedClusters (clusterService.Create memEnv constant demoCreate demoStore).calls =
        [cluster] ∧
      cluster.Spec.KubeRouter = "10.0.0.1" := by
  obtain ⟨cluster, hsaved, _, hfirst⟩ :=
    Create_router memEnv constant demoCreate demoStore demoCreate_resolves
  exact ⟨cluster, hsaved, hfirst _ _ _ rfl rfl⟩

/-- C3: when the plan lookup fails for a provider other than bare metal, or the
host lookup of some node descriptor fails, `Create` returns an error, namely the
error of the first lookup that fails (the plan lookup, else the first failing
host lookup in request order); it calls neither `clusterRepo.Save` nor
`clusterInitService.Init`, and the collaborator state is unchanged. -/
theorem Create_lookup_failure {σ : Type} (env : Env σ) (K : Constants)
    (creation : ClusterCreate) (s : σ)
    (hfail :
      (creation.Provider ≠ K.ClusterProviderBareMetal ∧
        ∃ e, env.planRepoGet s creation.Plan = .error e) ∨
      (∃ nc ∈ creation.Nodes, ∃ e, env.hostRepoGet s nc.HostName = .error e)) :
    ∃ e, (clusterService.Create env K creation s).err = some e ∧
      ((creation.Provider ≠ K.ClusterProviderBareMetal ∧
          env.planRepoGet s creation.Plan = .error e) ∨
        ((creation.Provider ≠ K.ClusterProviderBareMetal →
            ∃ plan, env.planRepoGet s creation.Plan = .ok plan) ∧
          ∃ pre nc post, creation.Nodes = pre ++ nc :: post ∧
            (∀ x ∈ pre, ∃ host, env.hostRepoGet s x.HostName = .ok host) ∧
            env.hostRepoGet s nc.HostName = .error e)) ∧
      (clusterService.Create env K creation s).store = s ∧
      (∀ cluster, Call.clusterRepoSave cluster ∉ (clusterService.Create env K creation s).calls) ∧
      (∀ name,
        Call.clusterInitServiceInit name ∉ (clusterService.Create env K creation s).calls) := by
  by_cases hplanfail : creation.Provider ≠ K.ClusterProviderBareMetal ∧
      ∃ e, env.planRepoGet s creation.Plan = .error e
  · obtain ⟨hprov, e, he⟩ := hplanfail
    have hrun := Create_init_error env K creation s e (createInit_error env K creation s e hprov he)
    have hw := lookups_no_write _ (createInit_lookups env K creation s)
    rw [hrun]
    exact ⟨e, rfl, Or.inl ⟨hprov, he⟩, rfl, hw.1, hw.2⟩
  · have hplan : creation.Provider ≠ K.ClusterProviderBareMetal →
        ∃ plan, env.planRepoGet s creation.Plan = .ok plan := by
      intro hprov
      cases hp : env.planRepoGet s creation.Plan with
      | error e => exact absurd ⟨hprov, e, hp⟩ hplanfail
      | ok plan => exact ⟨plan, rfl⟩
    have hhost : ∃ nc ∈ creation.Nodes, ∃ e, env.hostRepoGet s nc.HostName = .error e := by
      rcases hfail with h | h
      · exact absurd h hplanfail
      · exact h
    obtain ⟨c0, spec, h0, -⟩ := createInit_ok env K creation s hplan
    obtain ⟨pre, nc, post, e, hsplit, hpre, hnc, hrun⟩ :=
      createNodes_error env K s creation.Nodes hhost
    have hcreate := Create_nodes_error env K creation s c0 spec e h0 (hrun c0 1 1)
    have hw := lookups_no_write
      ((clusterService.createInit env K creation s).2 ++
        (clusterService.createNodes env K s creation.Nodes c0 1 1).2)
      (by
        intro call hc
        rcases List.mem_append.1 hc with h | h
        · exact createInit_lookups env K creation s call h
        · exact createNodes_lookups env K s creation.Nodes c0 1 1 call h)
    rw [hcreate]
    exact ⟨e, rfl, Or.inr ⟨hplan, pre, nc, post, hsplit, hpre, hnc⟩, rfl, hw.1, hw.2⟩

/-- C3 at a request whose second node names an unregistered host: `Create`
fails and the store is as before. -/
theorem Create_lookup_failure_witness :
    (clusterService.Create memEnv constant brokenCreate demoStore).err =
      some "record not found" ∧
    (clusterService.Create memEnv constant brokenCreate demoStore).store = demoStore ∧
    (∀ cluster, Call.clusterRepoSave cluster ∉
      (clusterService.Create memEnv constant brokenCreate demoStore).calls) ∧
    (∀ name, Call.clusterInitServiceInit name ∉
      (clusterService.Create memEnv constant brokenCreate demoStore).calls) := by
  obtain ⟨_, _, _, hstore, hsave, hinit⟩ :=
    Create_lookup_failure memEnv constant brokenCreate demoStore
      (Or.inr ⟨{ Role := "worker", HostName := "node-x" }, by simp [brokenCreate],
        "record not found", rfl⟩)
  exact ⟨rfl, hstore, hsave, hinit⟩

/-- For every request that resolves, bare metal or not, the cluster handed to
the store has worker count 0 in its Spec, while for a provider other than bare
metal the local variable `spec` holds the requested worker count. -/
theorem Create_saved_WorkerAmount {σ : Type} (env : Env σ) (K : Constants)
    (creation : ClusterCreate) (s : σ) (hres : Resolves env K creation s) :
    ∃ (cluster : Cluster) (c0 : Cluster) (spec : ClusterSpec),
      savedClusters (clusterService.Create env K creation s).calls = [cluster] ∧
      cluster.Spec.WorkerAmount = 0 ∧
      (clusterService.createInit env K creation s).1 = .ok (c0, spec) ∧
      (creation.Provider ≠ K.ClusterProviderBareMetal →
        spec.WorkerAmount = creation.WorkerAmount) := by
  obtain ⟨c0, spec, newNodes, h0, _, _, hw0, hsp, hsaved, _, _, _, _⟩ :=
    Create_resolves env K creation s hres
  refine ⟨_, c0, spec, hsaved, ?_, h0, hsp⟩
  rw [setKubeRouter_WorkerAmount]
  exact hw0

/-- C2 fails on the code:for the request `planCreate` (provider "plan", plan
"small" registered, worker count 3) `Create` succeeds and hands one cluster to
the store, and the worker count in the Spec of that cluster is 0, not 3: the
assignment to `spec.WorkerAmount` comes after `cluster.Spec = spec` has copied
the struct. -/
theorem Create_worker_amount_not_copied :
    planCreate.Provider ≠ constant.ClusterProviderBareMetal ∧
    Resolves memEnv constant planCreate demoStore ∧
    planCreate.WorkerAmount = 3 ∧
    (clusterService.Create memEnv constant planCreate demoStore).err = none ∧
    (savedClusters (clusterService.Create memEnv constant planCreate demoStore).calls).map
      (fun cluster => cluster.Spec.WorkerAmount) = [0] := by
  refine ⟨by decide, ⟨fun _ => ⟨_, rfl⟩, ?_⟩, rfl, rfl, rfl⟩
  intro nc hnc
  cases hnc

/-! ## Batch deletion -/

theorem Batch_delete_eq {σ : Type} (env : Env σ) (K : Constants) (items : List DtoCluster)
    (s : σ) :
    clusterService.Batch env K { Items := items, Operation := K.BatchOperationDelete } s =
      clusterService.batchDelete env K items s := by
  simp [clusterService.Batch]

theorem batchDelete_append_ok {σ : Type} (env : Env σ) (K : Constants) :
    ∀ (xs ys : List DtoCluster) (s : σ),
      (clusterService.batchDelete env K xs s).err = none →
      clusterService.batchDelete env K (xs ++ ys) s =
        ⟨(), (clusterService.batchDelete env K ys
                (clusterService.batchDelete env K xs s).store).err,
          (clusterService.batchDelete env K ys
                (clusterService.batchDelete env K xs s).store).store,
          (clusterService.batchDelete env K xs s).calls ++
            (clusterService.batchDelete env K ys
                (clusterService.batchDelete env K xs s).store).calls⟩ := by
  intro xs
  induction xs with
  | nil => intro ys s _; simp [clusterService.batchDelete]
  | cons x rest ih =>
    intro ys s h
    simp only [List.cons_append, clusterService.batchDelete] at h ⊢
    cases hg : (clusterService.Get env x.Cluster.Name s).err with
    | some e => rw [hg] at h; simp at h
    | none =>
      rw [hg] at h
      simp only at h ⊢
      split_ifs at h ⊢ with hc
      · simp only [List.append_eq] at h ⊢
        rw [ih ys _ h]
        simp [List.append_assoc]
      · simp only [List.append_eq] at h ⊢
        rw [ih ys _ h]
        simp [List.append_assoc]

theorem batchDelete_single_error {σ : Type} (env : Env σ) (K : Constants) (x : DtoCluster)
    (rest : List DtoCluster) (s : σ) (e : Error)
    (h : env.clusterRepoGet s x.Cluster.Name = .error e) :
    clusterService.batchDelete env K (x :: rest) s =
      ⟨(), some e, s, [.clusterRepoGet x.Cluster.Name]⟩ := by
  simp [clusterService.batchDelete, clusterService.Get, h]

theorem batchDelete_single_ok {σ : Type} (env : Env σ) (K : Constants) (x : DtoCluster)
    (s : σ) (mo : Cluster) (h : env.clusterRepoGet s x.Cluster.Name = .ok mo) :
    clusterService.batchDelete env K [x] s =
      if mo.Status.Phase = K.ClusterRunning ∨ mo.Status.Phase = K.ClusterFailed then
        ⟨(), none, (env.clusterTerminalServiceTerminal s mo).2,
          [.clusterRepoGet x.Cluster.Name, .clusterTerminalServiceTerminal mo]⟩
      else
        ⟨(), none, (env.clusterRepoDelete s x.Cluster.Name).2,
          [.clusterRepoGet x.Cluster.Name, .clusterRepoDelete x.Cluster.Name,
            .Println (env.clusterRepoDelete s x.Cluster.Name).1]⟩ := by
  simp only [clusterService.batchDelete, clusterService.Get, h, clusterService.Delete]
  split_ifs <;> simp

theorem deleteRun_succ {σ : Type} (env : Env σ) (K : Constants) (items : List DtoCluster)
    (s : σ) (k : Nat) (hk : k < items.length)
    (hok : (deleteRun env K items s k).err = none) :
    deleteRun env K items s (k + 1) =
      ⟨(), (clusterService.batchDelete env K [items[k]] (deleteRun env K items s k).store).err,
        (clusterService.batchDelete env K [items[k]] (deleteRun env K items s k).store).store,
        (deleteRun env K items s k).calls ++
          (clusterService.batchDelete env K [items[k]]
            (deleteRun env K items s k).store).calls⟩ := by
  unfold deleteRun at hok ⊢
  rw [Batch_delete_eq] at hok ⊢
  rw [Batch_delete_eq, List.take_succ, List.getElem?_eq_getElem hk, Option.toList_some,
    batchDelete_append_ok env K _ _ s hok]

theorem deleteRun_ok {σ : Type} (env : Env σ) (K : Constants) (items : List DtoCluster)
    (s : σ) :
    ∀ k, k ≤ items.length → LookupsSucceed env K items s k →
      (deleteRun env K items s k).err = none ∧
      (deleteRun env K items s k).calls.countP Call.isRemoval = k := by
  intro k
  induction k with
  | zero =>
    intro _ _
    simp [deleteRun, clusterService.Batch, clusterService.batchDelete]
  | succ k ih =>
    intro hk hall
    have hk2 : k < items.length := hk
    obtain ⟨hok, hcount⟩ := ih (Nat.le_of_lt hk2) (fun j hj hjk => hall j hj (Nat.lt_succ_of_lt hjk))
    obtain ⟨mo, hmo⟩ := hall k hk2 (Nat.lt_succ_self k)
    rw [deleteRun_succ env K items s k hk2 hok, batchDelete_single_ok env K _ _ mo hmo]
    split_ifs <;> simp [List.countP_append, hcount, Call.isRemoval, List.countP_cons]

theorem deleteRun_length {σ : Type} (env : Env σ) (K : Constants) (items : List DtoCluster)
    (s : σ) :
    deleteRun env K items s items.length =
      clusterService.Batch env K { Items := items, Operation := K.BatchOperationDelete } s := by
  unfold deleteRun
  rw [List.take_length]

theorem abc_lookups : LookupsSucceed memEnv constant abcItems abcStore abcItems.length := by
  intro j hj _
  rcases j with _ | _ | _ | j
  · exact ⟨_, rfl⟩
  · exact ⟨_, rfl⟩
  · exact ⟨_, rfl⟩
  · exact absurd hj (by simp [abcItems])

theorem abc_frozen_lookups :
    LookupsSucceed memEnv constant abcItems { abcStore with frozen := true } abcItems.length := by
  intro j hj _
  rcases j with _ | _ | _ | j
  · exact ⟨_, rfl⟩
  · exact ⟨_, rfl⟩
  · exact ⟨_, rfl⟩
  · exact absurd hj (by simp [abcItems])

theorem axb_lookups : LookupsSucceed memEnv constant axbItems abcStore 1 := by
  intro j hj hj1
  rcases j with _ | j
  · exact ⟨_, rfl⟩
  · omega

/-- C7: in a `Batch` call with operation Delete in which every lookup succeeds,
the items are processed in list order and each is routed by the status its
lookup returns in the state `Batch` has reached: the run over the first i+1
items is the run over the first i items followed by the lookup of item i and
then, when the status is Running or Failed, by one termination call for the
looked-up cluster and no store delete, and otherwise by one store delete of the
item name (whose error is printed) and no termination call.  The run over all
items is the `Batch` call itself. -/
theorem Batch_delete_routes {σ : Type} (env : Env σ) (K : Constants)
    (items : List DtoCluster) (s : σ)
    (hall : LookupsSucceed env K items s items.length) :
    deleteRun env K items s items.length =
      clusterService.Batch env K { Items := items, Operation := K.BatchOperationDelete } s ∧
    ∀ i (hi : i < items.length), ∃ mo,
      env.clusterRepoGet (deleteRun env K items s i).store items[i].Cluster.Name = .ok mo ∧
      deleteRun env K items s (i + 1) =
        if mo.Status.Phase = K.ClusterRunning ∨ mo.Status.Phase = K.ClusterFailed then
          ⟨(), none, (env.clusterTerminalServiceTerminal (deleteRun env K items s i).store mo).2,
            (deleteRun env K items s i).calls ++
              [.clusterRepoGet items[i].Cluster.Name, .clusterTerminalServiceTerminal mo]⟩
        else
          ⟨(), none,
            (env.clusterRepoDelete (deleteRun env K items s i).store items[i].Cluster.Name).2,
            (deleteRun env K items s i).calls ++
              [.clusterRepoGet items[i].Cluster.Name, .clusterRepoDelete items[i].Cluster.Name,
                .Println (env.clusterRepoDelete (deleteRun env K items s i).store
                  items[i].Cluster.Name).1]⟩ := by
  refine ⟨deleteRun_length env K items s, ?_⟩
  intro i hi
  obtain ⟨mo, hmo⟩ := hall i hi hi
  have hok := (deleteRun_ok env K items s i (Nat.le_of_lt hi)
    (fun j hj _ => hall j hj hj)).1
  refine ⟨mo, hmo, ?_⟩
  rw [deleteRun_succ env K items s i hi hok, batchDelete_single_ok env K _ _ mo hmo]
  split_ifs <;> rfl

/-- C7 at the batch A, B, C with A Waiting, B Running and C Failed: the whole
run deletes A directly and starts a termination for B and for C. -/
theorem Batch_delete_routes_witness :
    (clusterService.Batch memEnv constant { Items := abcItems, Operation := "delete" }
        abcStore).calls =
      [ .clusterRepoGet "A", .clusterRepoDelete "A", .Println none,
        .clusterRepoGet "B",
        .clusterTerminalServiceTerminal
          { ID := "b", Name := "B", Status := { Phase := "Running" } },
        .clusterRepoGet "C",
        .clusterTerminalServiceTerminal
          { ID := "c", Name := "C", Status := { Phase := "Failed" } } ] ∧
    ∃ mo, memEnv.clusterRepoGet (deleteRun memEnv constant abcItems abcStore 1).store "B" =
        .ok mo ∧
      deleteRun memEnv constant abcItems abcStore 2 =
        if mo.Status.Phase = "Running" ∨ mo.Status.Phase = "Failed" then
          ⟨(), none,
            (memEnv.clusterTerminalServiceTerminal
              (deleteRun memEnv constant abcItems abcStore 1).store mo).2,
            (deleteRun memEnv constant abcItems abcStore 1).calls ++
              [.clusterRepoGet "B", .clusterTerminalServiceTerminal mo]⟩
        else
          ⟨(), none,
            (memEnv.clusterRepoDelete (deleteRun memEnv constant abcItems abcStore 1).store
              "B").2,
            (deleteRun memEnv constant abcItems abcStore 1).calls ++
              [.clusterRepoGet "B", .clusterRepoDelete "B",
                .Println (memEnv.clusterRepoDelete
                  (deleteRun memEnv constant abcItems abcStore 1).store "B").1]⟩ :=
  ⟨rfl, (Batch_delete_routes memEnv constant abcItems abcStore abc_lookups).2 1 (by decide)⟩

/-- C8: in a `Batch` call with operation Delete, when the lookup of item i is
the first one to fail, `Batch` returns the error of that lookup; its state and
calls are those of the run over the first i items followed by the failed lookup
alone, and that run made exactly i delete or termination calls, one for each
earlier item: nothing is deleted or terminated for item i or a later item. -/
theorem Batch_delete_lookup_failure {σ : Type} (env : Env σ) (K : Constants)
    (items : List DtoCluster) (s : σ) (i : Nat) (hi : i < items.length) (e : Error)
    (hbefore : LookupsSucceed env K items s i)
    (hfail :
      env.clusterRepoGet (deleteRun env K items s i).store items[i].Cluster.Name = .error e) :
    clusterService.Batch env K { Items := items, Operation := K.BatchOperationDelete } s =
      ⟨(), some e, (deleteRun env K items s i).store,
        (deleteRun env K items s i).calls ++ [.clusterRepoGet items[i].Cluster.Name]⟩ ∧
    (deleteRun env K items s i).calls.countP Call.isRemoval = i := by
  obtain ⟨hok, hcount⟩ := deleteRun_ok env K items s i (Nat.le_of_lt hi) hbefore
  refine ⟨?_, hcount⟩
  have hsplit : items = items.take i ++ items[i] :: items.drop (i + 1) := by
    rw [← List.drop_eq_getElem_cons hi, List.take_append_drop]
  unfold deleteRun at hok hfail ⊢
  rw [Batch_delete_eq] at hok hfail ⊢
  rw [Batch_delete_eq]
  conv_lhs => rw [hsplit]
  rw [batchDelete_append_ok env K _ _ s hok,
    batchDelete_single_error env K _ _ _ e hfail]

/-- C8 at the batch with the single unknown item X, and at the batch A, X, B:
the error is not-found; for [X] nothing is called but the lookup. -/
theorem Batch_delete_lookup_failure_witness :
    clusterService.Batch memEnv constant
        { Items := [{ Cluster := { Name := "X" } }], Operation := "delete" } abcStore =
      ⟨(), some "record not found", abcStore, [.clusterRepoGet "X"]⟩ ∧
    (clusterService.Batch memEnv constant { Items := axbItems, Operation := "delete" }
        abcStore).err = some "record not found" ∧
    (clusterService.Batch memEnv constant { Items := axbItems, Operation := "delete" }
        abcStore).calls =
      [.clusterRepoGet "A", .clusterRepoDelete "A", .Println none, .clusterRepoGet "X"] :=
  ⟨(Batch_delete_lookup_failure memEnv constant [{ Cluster := { Name := "X" } }] abcStore 0
      (by decide) "record not found" (fun j _ hj => absurd hj (Nat.not_lt_zero j)) rfl).1,
   congrArg Outcome.err
    (Batch_delete_lookup_failure memEnv constant axbItems abcStore 1 (by decide)
      "record not found" axb_lookups rfl).1,
   congrArg Outcome.calls
    (Batch_delete_lookup_failure memEnv constant axbItems abcStore 1 (by decide)
      "record not found" axb_lookups rfl).1⟩

/-- C9: in a `Batch` call with operation Delete in which every lookup succeeds,
`Batch` returns a nil error and makes one delete or termination call per item,
whatever the store delete and the termination workflow return; so a non-nil
error of `Batch` with operation Delete means that some lookup failed. -/
theorem Batch_delete_nil_error {σ : Type} (env : Env σ) (K : Constants)
    (items : List DtoCluster) (s : σ)
    (hall : LookupsSucceed env K items s items.length) :
    (clusterService.Batch env K { Items := items, Operation := K.BatchOperationDelete } s).err =
      none ∧
    (clusterService.Batch env K
      { Items := items, Operation := K.BatchOperationDelete } s).calls.countP Call.isRemoval =
      items.length := by
  have h := deleteRun_ok env K items s items.length (Nat.le_refl _) hall
  rw [deleteRun_length] at h
  exact h

/-- C9 at the batch A, B, C on a read-only store: the delete of A fails and
both terminations fail, and `Batch` still returns a nil error after three
delete or termination calls. -/
theorem Batch_delete_nil_error_witness :
    (memEnv.clusterRepoDelete { abcStore with frozen := true } "A").1 =
      some "store is read-only" ∧
    (clusterService.Batch memEnv constant { Items := abcItems, Operation := "delete" }
      { abcStore with frozen := true }).err = none ∧
    (clusterService.Batch memEnv constant { Items := abcItems, Operation := "delete" }
      { abcStore with frozen := true }).calls.countP Call.isRemoval = 3 :=
  ⟨rfl, Batch_delete_nil_error memEnv constant abcItems { abcStore with frozen := true }
    abc_frozen_lookups⟩

end KubeOperator
